import Mathlib

/-!
Verification of the request-authorization and prediction-logging pipeline of
the basic-ml-app service, as a shallow embedding of `app/app.py`,
`app/services.py` and `db/engine.py`.

External collaborators (the token verifier `verify_token` from `app/auth.py`,
the classifier capability `IntentClassifier.predict`, the MongoDB collection
handle) are parameters of the embedded functions: each is a pure function
returning `Except`, so that a raised exception is an `Except.error`.
Side effects on the collaborators are made observable through an explicit
`Trace` value (how often the verifier was consulted, which classifiers were
invoked, how many insert operations were attempted).
-/

namespace BasicMlApp

/-- A Python exception as seen by the request handler: either a FastAPI
`HTTPException` carrying a status code and detail, or any other exception
carrying a message. -/
inductive PyExc where
  | http (status : Nat) (detail : String)
  | other (msg : String)
deriving DecidableEq

/-- The result of one classifier invocation, the pair
`(top_intent, all_probs)` returned by `IntentClassifier.predict`. -/
structure Pred where
  top_intent : String
  all_probs : List (String × Rat)
deriving DecidableEq

/-- A value stored in a result dictionary of `app/app.py`: the `text` and
`owner` strings, the integer `timestamp`, the nested predictions mapping, or
a raw MongoDB `ObjectId` (the native identifier type, modelled by the number
the storage backend generated). -/
inductive Val where
  | str (s : String)
  | int (n : Int)
  | preds (p : List (String × Pred))
  | oid (o : Nat)
deriving DecidableEq

/-- A Python dict with string keys, as an insertion-ordered association
list with unique keys. -/
abbrev Doc := List (String × Val)

/-- Dictionary lookup. -/
def Doc.get : Doc → String → Option Val
  | [], _ => none
  | (k, v) :: rest, key => if k = key then some v else Doc.get rest key

/-- Dictionary assignment `d[key] = v`: replaces in place when the key is
present, otherwise appends (Python dict insertion order). -/
def Doc.set : Doc → String → Val → Doc
  | [], key, v => [(key, v)]
  | (k, w) :: rest, key, v =>
      if k = key then (k, v) :: rest else (k, w) :: Doc.set rest key v

/-- Dictionary removal `d.pop(key)`. -/
def Doc.pop : Doc → String → Doc
  | [], _ => []
  | (k, w) :: rest, key => if k = key then rest else (k, w) :: Doc.pop rest key

/-- Observable side effects of one request on the collaborators:
how many times `verify_token` was invoked, which classifiers had their
`predict` invoked (in order), and how many `insert_one` operations were
attempted on the storage collection. -/
structure Trace where
  verify_calls : Nat
  predict_calls : List String
  insert_calls : Nat
deriving DecidableEq

/-- The request body model, `app/app.py` lines 18-19: a Pydantic model with
the single field `text`.  The caller can supply nothing else — in
particular no timestamp. -/
structure PredictRequest where
  text : String
deriving DecidableEq

/-- Python `str.lower` on one character (ASCII range, which covers the
mode values this service compares against). -/
def py_lower_char (c : Char) : Char :=
  if 'A' ≤ c ∧ c ≤ 'Z' then Char.ofNat (c.toNat + 32) else c

/-- Python `str.lower`. -/
def py_lower (s : String) : String := String.mk (s.data.map py_lower_char)

/-- `ENV = os.getenv("ENV", "prod").lower()` from `app/app.py` line 27:
the environment mode is the lowercased value of the `ENV` variable,
defaulting to `prod` when unset. -/
def env_mode (envVar : Option String) : String :=
  py_lower (envVar.getD "prod")

/-- `conditional_auth` from `app/app.py` lines 62-75.  In `dev` mode it
returns the sentinel `dev_user` without consulting the verifier; otherwise it
calls `verify_token`, re-raising an `HTTPException` unchanged and converting
any other exception into `HTTPException(401, "Authentication failed")`.
The second component counts how often the verifier was invoked. -/
def conditional_auth (env : String) (verify_token : Option String → Except PyExc String)
    (hdr : Option String) : Except PyExc String × Nat :=
  if env = "dev" then
    (.ok "dev_user", 0)
  else
    match verify_token hdr with
    | .ok owner => (.ok owner, 1)
    | .error (.http s d) => (.error (.http s d), 1)
    | .error (.other _) => (.error (.http 401 "Authentication failed"), 1)

/-- The prediction loop of `app/app.py` lines 105-111 (also
`app/services.py` lines 35-38): invoke every loaded classifier in order on
the input text; the first raised exception propagates (the loop has no
per-model handler).  The second component lists the classifiers whose
`predict` was invoked. -/
def run_models (models : List (String × (String → Except String Pred)))
    (text : String) : Except String (List (String × Pred)) × List String :=
  match models with
  | [] => (.ok [], [])
  | (name, m) :: rest =>
    match m text with
    | .error e => (.error e, [name])
    | .ok p =>
      let r := run_models rest text
      (match r.1 with
       | .error e => .error e
       | .ok ps => .ok ((name, p) :: ps), name :: r.2)

/-- The `results` dict assembled in `app/app.py` lines 113-118: the original
text, the resolved owner, the collected predictions and the server-assigned
UTC timestamp. -/
def mk_results (text owner : String) (preds : List (String × Pred))
    (now : Int) : Doc :=
  [("text", .str text), ("owner", .str owner),
   ("predictions", .preds preds), ("timestamp", .int now)]

/-- `app/app.py` lines 121-123 after a successful insert (and identically
`db/engine.py` lines 43-45): PyMongo has mutated the dict by appending the
generated `_id` ObjectId; the handler then assigns `id = str(_id)` and pops
the raw `_id`. -/
def finalize_body (results : Doc) (oid : Nat) : Doc :=
  Doc.pop (Doc.set (results ++ [("_id", Val.oid oid)]) "id" (.str (toString oid))) "_id"

/-- A response of the service: a 200 JSON body, or an error status with a
detail string.  An exception the framework has to handle itself (anything
that is not an `HTTPException`) becomes a 500 `Internal Server Error`. -/
inductive HResp where
  | ok (body : Doc)
  | err (status : Nat) (detail : String)
deriving DecidableEq

/-- How FastAPI renders an exception escaping a dependency: an
`HTTPException` keeps its status and detail, anything else is a 500. -/
def excResp : PyExc → HResp
  | .http s d => .err s d
  | .other _ => .err 500 "Internal Server Error"

/-- The `POST /predict` handler, `app/app.py` lines 102-125, together with
the FastAPI dependency semantics: `conditional_auth` runs to completion
first and a failure there produces its error response with the endpoint body
never entered; the body then runs every classifier (fail-fast), assembles
`results`, and calls `collection.insert_one`.  `collection` is `none` when
startup failed to acquire the handle (then the attribute access on `None`
raises, a 500, before any insert).  A raised insert error is unhandled, a
500.  On success the body converts `_id` to the plain string `id`. -/
def predict_route (env : String)
    (verify_token : Option String → Except PyExc String)
    (models : List (String × (String → Except String Pred)))
    (collection : Option (Doc → Except String Nat))
    (now : Int) (hdr : Option String) (body : PredictRequest) : HResp × Trace :=
  match conditional_auth env verify_token hdr with
  | (.error e, vc) => (excResp e, ⟨vc, [], 0⟩)
  | (.ok owner, vc) =>
    match run_models models body.text with
    | (.error _, pcalls) => (.err 500 "Internal Server Error", ⟨vc, pcalls, 0⟩)
    | (.ok preds, pcalls) =>
      match collection with
      | none => (.err 500 "Internal Server Error", ⟨vc, pcalls, 0⟩)
      | some ins =>
        match ins (mk_results body.text owner preds now) with
        | .error _ => (.err 500 "Internal Server Error", ⟨vc, pcalls, 1⟩)
        | .ok oid =>
          (.ok (finalize_body (mk_results body.text owner preds now) oid),
           ⟨vc, pcalls, 1⟩)

/-- Startup acquisition of the collection handle, `app/app.py` lines 52-58:
the `try` block calls `get_mongo_collection`; on any exception the handler
only logs and sets `collection = None` — the process keeps starting and the
routes are registered regardless. -/
def startup_collection {C : Type} (acquire : Except String C) : Option C :=
  match acquire with
  | .ok c => some c
  | .error _ => none

/-- Startup model loading, `app/app.py` lines 78-90: the loop mutates the
`MODELS` dict inside a `try`; on the first exception the handler only logs,
keeping whatever models were already loaded — the process keeps starting.
Each list entry is one loop iteration: the model name together with the
outcome of constructing its classifier. -/
def startup_models {M : Type} (steps : List (String × Except String M)) :
    List (String × M) :=
  match steps with
  | [] => []
  | (name, .ok m) :: rest => (name, m) :: startup_models rest
  | (_, .error _) :: _ => []

/-- A Python object as passed to `log_prediction`: either a Pydantic model
instance (which has a `model_dump` method) or a plain dict (which does
not). -/
inductive PyObj where
  | pydModel (fields : Doc)
  | dict (fields : Doc)
deriving DecidableEq

/-- Calling `.model_dump()` on a value: a Pydantic model yields its fields
as a plain dict; a plain dict has no such attribute, so the call raises an
`AttributeError`. -/
def model_dump : PyObj → Except String Doc
  | .pydModel fields => .ok fields
  | .dict _ => .error "AttributeError: dict object has no attribute model_dump"

/-- `log_prediction` from `db/engine.py` lines 25-49: acquire the
collection handle, call `prediction_data.model_dump()`, insert the dict
(PyMongo appends `_id`), then expose the generated id as the string `id`
and pop the raw `_id`; an insert failure is re-raised wrapped in a message.
The second component counts attempted insert operations. -/
def log_prediction (acquire : Except String (Doc → Except String Nat))
    (prediction_data : PyObj) : Except String Doc × Nat :=
  match acquire with
  | .error e => (.error e, 0)
  | .ok ins =>
    match model_dump prediction_data with
    | .error e => (.error e, 0)
    | .ok d =>
      match ins d with
      | .error e => (.error ("Failed to log prediction to database. Error: " ++ e), 1)
      | .ok oid => (.ok (finalize_body d oid), 1)

/-- Modelled from the spec: `PredictionResponse` lives in `app/schema.py`,
which is absent from the sources; per §3 it is the PredictionRecord with
fields `text`, `owner`, `predictions`, `timestamp` (and `id` only after
persistence, so `model_dump(exclude_none=True)` omits it).  It is a
Pydantic model, hence a `PyObj.pydModel` over those fields. -/
def prediction_response (text owner : String) (preds : List (String × Pred))
    (now : Int) : PyObj :=
  .pydModel (mk_results text owner preds now)

/-- `predict_and_log_intent` from `app/services.py` lines 22-52: run every
classifier (fail-fast), build the `PredictionResponse` log document, convert
it to a plain dict with `model_dump(exclude_none=True)`, and hand that dict
to `log_prediction`.  The trace lists the classifiers invoked and counts
attempted inserts. -/
def predict_and_log_intent (text owner : String)
    (models : List (String × (String → Except String Pred)))
    (now : Int) (acquire : Except String (Doc → Except String Nat)) :
    Except String Doc × (List String × Nat) :=
  match run_models models text with
  | (.error e, pcalls) => (.error e, pcalls, 0)
  | (.ok preds, pcalls) =>
    match model_dump (prediction_response text owner preds now) with
    | .error e => (.error e, pcalls, 0)
    | .ok log_dict =>
      let r := log_prediction acquire (.dict log_dict)
      (r.1, pcalls, r.2)

/-! ## Concrete collaborators used to exercise the embedding -/

/-- A verifier that rejects every request for a missing header, the way
`verify_token` does per the repository tests. -/
def vt_denied : Option String → Except PyExc String :=
  fun _ => .error (.http 401 "Missing Authorization header")

/-- A verifier that accepts every request. -/
def vt_accept : Option String → Except PyExc String :=
  fun _ => .ok "mock_prod_user"

/-- A verifier whose token store is unreachable: it raises a plain
exception, not an `HTTPException`. -/
def vt_down : Option String → Except PyExc String :=
  fun _ => .error (.other "token store unreachable")

/-- The prediction the mocked classifier of the repository tests returns. -/
def mock_pred : Pred := ⟨"mock_intent", [("mock_intent", 9/10), ("other", 1/10)]⟩

/-- A classifier that always answers `mock_intent`, as in the repository
tests. -/
def mock_model : String → Except String Pred :=
  fun _ => .ok mock_pred

/-- A one-classifier model mapping, as the repository tests install. -/
def demo_models : List (String × (String → Except String Pred)) :=
  [("mock-model", mock_model)]

/-- The predictions `demo_models` produces on any text. -/
def demo_preds : List (String × Pred) := [("mock-model", mock_pred)]

/-- The finalized 200 body of a concrete successful dev-mode request. -/
def demo_ok_body : Doc := finalize_body (mk_results "hi" "dev_user" demo_preds 5) 7

/-- A classifier whose `predict` raises. -/
def broken_model : String → Except String Pred :=
  fun _ => .error "predict failed"

/-- A collection whose `insert_one` succeeds, generating ObjectId 7. -/
def ins_ok : Doc → Except String Nat := fun _ => .ok 7

/-- A collection whose `insert_one` raises. -/
def ins_down : Doc → Except String Nat := fun _ => .error "insert_one failed"

/-! ## Helper lemmas -/

/-- Normal form of a finalized response body: the four assembled fields
followed by the stringified `id`, with the raw `_id` removed. -/
theorem finalize_mk_results (t o : String) (p : List (String × Pred))
    (n : Int) (oid : Nat) :
    finalize_body (mk_results t o p n) oid =
      [("text", .str t), ("owner", .str o), ("predictions", .preds p),
       ("timestamp", .int n), ("id", .str (toString oid))] := by
  simp [finalize_body, mk_results, Doc.set, Doc.pop]

/-- Inversion for a 200 response: it can only arise on the full success
path, the body is a finalized record built from the request text, and the
trace records exactly one insert attempt. -/
theorem predict_route_ok_inv (env : String)
    (vt : Option String → Except PyExc String)
    (models : List (String × (String → Except String Pred)))
    (coll : Option (Doc → Except String Nat)) (now : Int)
    (hdr : Option String) (body : PredictRequest) (b : Doc)
    (h : (predict_route env vt models coll now hdr body).1 = HResp.ok b) :
    ∃ owner preds oid,
      conditional_auth env vt hdr =
        (.ok owner, (predict_route env vt models coll now hdr body).2.verify_calls) ∧
      b = finalize_body (mk_results body.text owner preds now) oid ∧
      (predict_route env vt models coll now hdr body).2.insert_calls = 1 := by
  rcases hca : conditional_auth env vt hdr with ⟨e | owner, vc⟩
  · simp [predict_route, hca, excResp] at h
    cases e <;> simp [excResp] at h
  · rcases hrm : run_models models body.text with ⟨e2 | preds, pcalls⟩
    · simp [predict_route, hca, hrm] at h
    · cases coll with
      | none => simp [predict_route, hca, hrm] at h
      | some ins =>
        rcases hins : ins (mk_results body.text owner preds now) with e3 | oid
        · simp [predict_route, hca, hrm, hins] at h
        · refine ⟨owner, preds, oid, ?_, ?_, ?_⟩ <;>
            simp [predict_route, hca, hrm, hins] at h ⊢
          exact h.symm

/-! ## Claim theorems -/

/-- C1: in a non-dev mode, a request whose token verification fails (any
exception raised by `verify_token`, covering missing, malformed and
invalid/inactive tokens) is answered with an error response before the
endpoint body runs: no classifier `predict` is invoked and no insert is
attempted — the trace shows zero side effects on model and storage. -/
theorem predict_auth_failure_zero_side_effects (env : String) (henv : env ≠ "dev")
    (vt : Option String → Except PyExc String) (hdr : Option String)
    (e : PyExc) (hfail : vt hdr = .error e)
    (models : List (String × (String → Except String Pred)))
    (coll : Option (Doc → Except String Nat)) (now : Int) (body : PredictRequest) :
    ∃ s d, predict_route env vt models coll now hdr body =
      (.err s d, ⟨1, [], 0⟩) := by
  have hca : ∃ s d, conditional_auth env vt hdr = (.error (.http s d), 1) := by
    unfold conditional_auth
    rw [if_neg henv, hfail]
    cases e with
    | http s d => exact ⟨s, d, rfl⟩
    | other m => exact ⟨401, "Authentication failed", rfl⟩
  obtain ⟨s, d, hca⟩ := hca
  exact ⟨s, d, by simp [predict_route, hca, excResp]⟩

/-- Witness for C1: a prod-mode request with a missing header is rejected
with zero classifier invocations and zero inserts even though a classifier
and a working collection are loaded. -/
theorem predict_auth_failure_zero_side_effects_witness :
    ∃ s d, predict_route "prod" vt_denied demo_models (some ins_ok) 0 none ⟨"x"⟩ =
      (.err s d, ⟨1, [], 0⟩) :=
  predict_auth_failure_zero_side_effects "prod" (by decide) vt_denied none
    (.http 401 "Missing Authorization header") rfl demo_models (some ins_ok) 0 ⟨"x"⟩

/-- C4: in dev mode, `/predict` never consults the token verifier (the
trace records zero `verify_token` calls on every path) and any 200 body
carries the fixed sentinel owner `dev_user`. -/
theorem predict_dev_mode_no_lookup_owner_sentinel
    (vt : Option String → Except PyExc String)
    (models : List (String × (String → Except String Pred)))
    (coll : Option (Doc → Except String Nat)) (now : Int)
    (hdr : Option String) (body : PredictRequest) :
    (predict_route "dev" vt models coll now hdr body).2.verify_calls = 0 ∧
    ∀ b, (predict_route "dev" vt models coll now hdr body).1 = .ok b →
      Doc.get b "owner" = some (.str "dev_user") := by
  have hca : conditional_auth "dev" vt hdr = (.ok "dev_user", 0) := rfl
  constructor
  · rcases hrm : run_models models body.text with ⟨e2 | preds, pcalls⟩
    · simp [predict_route, hca, hrm]
    · cases coll with
      | none => simp [predict_route, hca, hrm]
      | some ins =>
        rcases hins : ins (mk_results body.text "dev_user" preds now) with e3 | oid <;>
          simp [predict_route, hca, hrm, hins]
  · intro b hb
    obtain ⟨owner, preds, oid, hca2, hbeq, -⟩ :=
      predict_route_ok_inv _ _ _ _ _ _ _ _ hb
    rw [hca] at hca2
    have howner : owner = "dev_user" := by
      have h1 := congrArg Prod.fst hca2
      simp at h1
      exact h1.symm
    rw [hbeq, howner, finalize_mk_results]
    simp [Doc.get]

/-- Witness for C4: a concrete dev-mode request consults the verifier zero
times, and its concrete 200 body has owner `dev_user`. -/
theorem predict_dev_mode_no_lookup_owner_sentinel_witness :
    (predict_route "dev" vt_accept demo_models (some ins_ok) 5 none ⟨"hi"⟩).2.verify_calls = 0 ∧
    Doc.get demo_ok_body "owner" = some (.str "dev_user") :=
  ⟨(predict_dev_mode_no_lookup_owner_sentinel vt_accept demo_models (some ins_ok) 5 none ⟨"hi"⟩).1,
   (predict_dev_mode_no_lookup_owner_sentinel vt_accept demo_models (some ins_ok) 5 none ⟨"hi"⟩).2
     demo_ok_body rfl⟩

/-- C6: the `timestamp` of any 200 body equals the server-captured clock
value `now`, the assembled record persisted by the route carries that same
`now`, and the handler depends on the request body only through its sole
field `text` — the body type admits no caller-supplied timestamp. -/
theorem predict_timestamp_server_assigned (env : String)
    (vt : Option String → Except PyExc String)
    (models : List (String × (String → Except String Pred)))
    (coll : Option (Doc → Except String Nat)) (now : Int)
    (hdr : Option String) (body : PredictRequest) :
    (∀ b, (predict_route env vt models coll now hdr body).1 = .ok b →
       Doc.get b "timestamp" = some (.int now)) ∧
    (∀ t o p, Doc.get (mk_results t o p now) "timestamp" = some (.int now)) ∧
    predict_route env vt models coll now hdr body =
      predict_route env vt models coll now hdr ⟨body.text⟩ := by
  refine ⟨?_, ?_, rfl⟩
  · intro b hb
    obtain ⟨owner, preds, oid, -, hbeq, -⟩ :=
      predict_route_ok_inv _ _ _ _ _ _ _ _ hb
    rw [hbeq, finalize_mk_results]
    simp [Doc.get]
  · intro t o p
    simp [mk_results, Doc.get]

/-- Witness for C6: the concrete 200 body of a dev-mode request at clock
value 5 carries timestamp 5. -/
theorem predict_timestamp_server_assigned_witness :
    Doc.get demo_ok_body "timestamp" = some (.int 5) :=
  (predict_timestamp_server_assigned "dev" vt_accept demo_models (some ins_ok) 5
    none ⟨"hi"⟩).1 demo_ok_body rfl

/-- C2: a 200 body always carries `id` as a plain string with the raw
`_id` ObjectId removed and corresponds to exactly one insert attempt
(persistence succeeded); and when the insert raises, the whole request
fails with a 500 and no body is returned. -/
theorem predict_id_iff_persisted (env : String)
    (vt : Option String → Except PyExc String)
    (models : List (String × (String → Except String Pred)))
    (coll : Option (Doc → Except String Nat)) (now : Int)
    (hdr : Option String) (body : PredictRequest) :
    (∀ b, (predict_route env vt models coll now hdr body).1 = .ok b →
       (∃ s, Doc.get b "id" = some (.str s)) ∧ Doc.get b "_id" = none ∧
       (predict_route env vt models coll now hdr body).2.insert_calls = 1) ∧
    (∀ owner vc preds pcalls ins e,
       conditional_auth env vt hdr = (.ok owner, vc) →
       run_models models body.text = (.ok preds, pcalls) →
       coll = some ins →
       ins (mk_results body.text owner preds now) = .error e →
       predict_route env vt models coll now hdr body =
         (.err 500 "Internal Server Error", ⟨vc, pcalls, 1⟩)) := by
  constructor
  · intro b hb
    obtain ⟨owner, preds, oid, -, hbeq, hins⟩ :=
      predict_route_ok_inv _ _ _ _ _ _ _ _ hb
    refine ⟨⟨toString oid, ?_⟩, ?_, hins⟩ <;>
      rw [hbeq, finalize_mk_results] <;> simp [Doc.get]
  · intro owner vc preds pcalls ins e hca hrm hcoll hins
    subst hcoll
    simp [predict_route, hca, hrm, hins]

/-- Witness for C2: the concrete dev-mode 200 body carries a string `id`
and no `_id` after one insert, and the same request against a raising
collection yields a 500 after its single failed insert attempt. -/
theorem predict_id_iff_persisted_witness :
    ((∃ s, Doc.get demo_ok_body "id" = some (Val.str s)) ∧
      Doc.get demo_ok_body "_id" = none ∧
      (predict_route "dev" vt_accept demo_models (some ins_ok) 5 none ⟨"hi"⟩).2.insert_calls = 1) ∧
    predict_route "dev" vt_accept demo_models (some ins_down) 5 none ⟨"hi"⟩ =
      (.err 500 "Internal Server Error", ⟨0, ["mock-model"], 1⟩) :=
  ⟨(predict_id_iff_persisted "dev" vt_accept demo_models (some ins_ok) 5 none ⟨"hi"⟩).1
     demo_ok_body rfl,
   (predict_id_iff_persisted "dev" vt_accept demo_models (some ins_down) 5 none ⟨"hi"⟩).2
     "dev_user" 0 demo_preds ["mock-model"] ins_down "insert_one failed" rfl rfl rfl rfl⟩

/-- C3: once authorization has succeeded, a raising classifier fails the
whole request with a 500 — the loop has no per-model handler to skip it —
and the insert is never attempted, so no record of a half-computed
prediction set is persisted. -/
theorem predict_classifier_failure_fail_fast (env : String)
    (vt : Option String → Except PyExc String) (hdr : Option String)
    (owner : String) (vc : Nat)
    (hauth : conditional_auth env vt hdr = (.ok owner, vc))
    (models : List (String × (String → Except String Pred)))
    (text : String) (e : String) (pcalls : List String)
    (hm : run_models models text = (.error e, pcalls))
    (coll : Option (Doc → Except String Nat)) (now : Int) :
    predict_route env vt models coll now hdr ⟨text⟩ =
      (.err 500 "Internal Server Error", ⟨vc, pcalls, 0⟩) := by
  simp [predict_route, hauth, hm]

/-- Witness for C3: a prod-mode authorized request against a raising
classifier gets a 500 with zero insert attempts. -/
theorem predict_classifier_failure_fail_fast_witness :
    predict_route "prod" vt_accept [("bad", broken_model)] (some ins_ok) 0
      (some "Bearer t") ⟨"x"⟩ =
      (.err 500 "Internal Server Error", ⟨1, ["bad"], 0⟩) :=
  predict_classifier_failure_fail_fast "prod" vt_accept (some "Bearer t")
    "mock_prod_user" 1 rfl [("bad", broken_model)] "x" "predict failed" ["bad"]
    rfl (some ins_ok) 0

/-- C5: every 200 response corresponds to exactly one insert attempt,
whatever the model mapping; and with an empty model mapping a request that
passes auth and persists still returns 200 with an empty predictions
mapping and exactly one insert. -/
theorem predict_exactly_one_insert (env : String)
    (vt : Option String → Except PyExc String)
    (models : List (String × (String → Except String Pred)))
    (coll : Option (Doc → Except String Nat)) (now : Int)
    (hdr : Option String) (body : PredictRequest) :
    (∀ b, (predict_route env vt models coll now hdr body).1 = .ok b →
       (predict_route env vt models coll now hdr body).2.insert_calls = 1) ∧
    (∀ owner vc ins oid,
       models = [] →
       conditional_auth env vt hdr = (.ok owner, vc) →
       coll = some ins →
       ins (mk_results body.text owner [] now) = .ok oid →
       predict_route env vt models coll now hdr body =
         (.ok (finalize_body (mk_results body.text owner [] now) oid), ⟨vc, [], 1⟩) ∧
       Doc.get (finalize_body (mk_results body.text owner [] now) oid) "predictions" =
         some (.preds [])) := by
  constructor
  · intro b hb
    obtain ⟨-, -, -, -, -, hins⟩ := predict_route_ok_inv _ _ _ _ _ _ _ _ hb
    exact hins
  · intro owner vc ins oid hmodels hca hcoll hins
    subst hmodels
    subst hcoll
    constructor
    · simp [predict_route, hca, run_models, hins]
    · rw [finalize_mk_results]
      simp [Doc.get]

/-- Witness for C5: the concrete dev-mode success performs one insert, and
the same request with zero models loaded returns a 200 with empty
predictions and one insert. -/
theorem predict_exactly_one_insert_witness :
    (predict_route "dev" vt_accept demo_models (some ins_ok) 5 none ⟨"hi"⟩).2.insert_calls = 1 ∧
    (predict_route "dev" vt_accept [] (some ins_ok) 5 none ⟨"hi"⟩ =
       (.ok (finalize_body (mk_results "hi" "dev_user" [] 5) 7), ⟨0, [], 1⟩) ∧
     Doc.get (finalize_body (mk_results "hi" "dev_user" [] 5) 7) "predictions" =
       some (.preds [])) :=
  ⟨(predict_exactly_one_insert "dev" vt_accept demo_models (some ins_ok) 5 none ⟨"hi"⟩).1
     demo_ok_body rfl,
   (predict_exactly_one_insert "dev" vt_accept [] (some ins_ok) 5 none ⟨"hi"⟩).2
     "dev_user" 0 ins_ok 7 rfl rfl rfl rfl⟩

/-- C7 counterexample: a storage-handle failure at startup is not fatal —
the exception is swallowed, the handle becomes `none`, and the process
still serves `POST /predict`, answering this concrete request with a 500
while holding an unusable storage collaborator. -/
theorem startup_failure_still_serves_counterexample :
    startup_collection (C := Doc → Except String Nat)
        (.error "connection refused") = none ∧
    predict_route "dev" vt_accept demo_models
        (startup_collection (.error "connection refused")) 5 none ⟨"hi"⟩ =
      (.err 500 "Internal Server Error", ⟨0, ["mock-model"], 0⟩) :=
  ⟨rfl, rfl⟩

/-- C7 amended: a startup failure of storage-handle acquisition (or of a
model-loading step) is caught, leaving the handle `none` (and the model
mapping holding only the models loaded before the failing step); the
process still serves `/predict`, and every request that passes auth and
the classifiers then fails with a 500 at the persistence step, attempting
no insert. -/
theorem startup_failure_degraded_service (e : String) (env : String)
    (vt : Option String → Except PyExc String) (hdr : Option String)
    (owner : String) (vc : Nat)
    (hauth : conditional_auth env vt hdr = (.ok owner, vc))
    (models : List (String × (String → Except String Pred)))
    (text : String) (preds : List (String × Pred)) (pcalls : List String)
    (hm : run_models models text = (.ok preds, pcalls))
    (now : Int) (name em : String)
    (msteps : List (String × Except String Unit)) :
    startup_collection (C := Doc → Except String Nat) (.error e) = none ∧
    startup_models ((name, Except.error em) :: msteps) = ([] : List (String × Unit)) ∧
    predict_route env vt models (startup_collection (.error e)) now hdr ⟨text⟩ =
      (.err 500 "Internal Server Error", ⟨vc, pcalls, 0⟩) := by
  refine ⟨rfl, rfl, ?_⟩
  simp [predict_route, hauth, hm, startup_collection]

/-- Witness for the amended C7: concrete startup failures leave a `none`
handle and an empty model mapping, and a concrete dev-mode request is then
served a 500 with zero inserts. -/
theorem startup_failure_degraded_service_witness :
    startup_collection (C := Doc → Except String Nat) (.error "connection refused") = none ∧
    startup_models [("confusion", Except.error "keras load failed")] = ([] : List (String × Unit)) ∧
    predict_route "dev" vt_accept demo_models
        (startup_collection (.error "connection refused")) 5 none ⟨"hi"⟩ =
      (.err 500 "Internal Server Error", ⟨0, ["mock-model"], 0⟩) :=
  startup_failure_degraded_service "connection refused" "dev" vt_accept none
    "dev_user" 0 rfl demo_models "hi" demo_preds ["mock-model"] rfl 5
    "confusion" "keras load failed" []

/-- C8: an unset `ENV` yields mode `prod`, under which every request
consults the token verifier exactly once (strict auth); and any casing of
`dev` lowercases to mode `dev`, under which auth is bypassed with the
sentinel owner and zero verifier calls. -/
theorem env_mode_default_prod_and_dev_casing (s : String)
    (hs : py_lower s = "dev") :
    env_mode none = "prod" ∧
    (∀ vt hdr, (conditional_auth (env_mode none) vt hdr).2 = 1) ∧
    env_mode (some s) = "dev" ∧
    (∀ vt hdr, conditional_auth (env_mode (some s)) vt hdr = (.ok "dev_user", 0)) := by
  have h1 : env_mode none = "prod" := by decide
  refine ⟨h1, ?_, hs, ?_⟩
  · intro vt hdr
    rw [h1]
    unfold conditional_auth
    rw [if_neg (by decide : ¬("prod" = "dev"))]
    rcases hv : vt hdr with e | o
    · cases e <;> simp
    · simp
  · intro vt hdr
    have h2 : env_mode (some s) = "dev" := hs
    rw [h2]
    rfl

/-- Witness for C8: the uppercase value `DEV` enables the bypass exactly
like `dev`, and the unset default enforces one verifier call. -/
theorem env_mode_default_prod_and_dev_casing_witness :
    env_mode none = "prod" ∧
    (conditional_auth (env_mode none) vt_denied none).2 = 1 ∧
    env_mode (some "DEV") = "dev" ∧
    conditional_auth (env_mode (some "DEV")) vt_denied none = (.ok "dev_user", 0) :=
  have h := env_mode_default_prod_and_dev_casing "DEV" (by decide)
  ⟨h.1, h.2.1 vt_denied none, h.2.2.1, h.2.2.2 vt_denied none⟩

/-- C9: for any text, owner and non-failing model mapping, the alternate
pipeline `predict_and_log_intent` ends in a raised exception with zero
insert attempts — whenever the collection handle is acquired, the error is
precisely the `AttributeError` from calling `model_dump` on the plain dict
it had already dumped — so this variant never persists a record and never
returns a result. -/
theorem services_double_dump_never_persists (text owner : String)
    (models : List (String × (String → Except String Pred)))
    (preds : List (String × Pred)) (pcalls : List String)
    (hm : run_models models text = (.ok preds, pcalls))
    (now : Int) (acquire : Except String (Doc → Except String Nat)) :
    (∃ e, (predict_and_log_intent text owner models now acquire).1 = .error e) ∧
    (predict_and_log_intent text owner models now acquire).2.2 = 0 ∧
    (∀ ins, acquire = .ok ins →
       (predict_and_log_intent text owner models now acquire).1 =
         .error "AttributeError: dict object has no attribute model_dump") := by
  cases acquire with
  | error e =>
    refine ⟨⟨e, ?_⟩, ?_, ?_⟩
    · simp [predict_and_log_intent, hm, prediction_response, model_dump, log_prediction]
    · simp [predict_and_log_intent, hm, prediction_response, model_dump, log_prediction]
    · intro ins hins
      cases hins
  | ok ins =>
    refine ⟨⟨"AttributeError: dict object has no attribute model_dump", ?_⟩, ?_, ?_⟩
    · simp [predict_and_log_intent, hm, prediction_response, model_dump, log_prediction]
    · simp [predict_and_log_intent, hm, prediction_response, model_dump, log_prediction]
    · intro ins2 hins
      simp [predict_and_log_intent, hm, prediction_response, model_dump, log_prediction]

/-- Witness for C9: a concrete call with the mocked classifier and a
working collection raises the `AttributeError` and attempts zero
inserts. -/
theorem services_double_dump_never_persists_witness :
    (∃ e, (predict_and_log_intent "hi" "dev_user" demo_models 5 (.ok ins_ok)).1 = .error e) ∧
    (predict_and_log_intent "hi" "dev_user" demo_models 5 (.ok ins_ok)).2.2 = 0 ∧
    (predict_and_log_intent "hi" "dev_user" demo_models 5 (.ok ins_ok)).1 =
      .error "AttributeError: dict object has no attribute model_dump" :=
  have h := services_double_dump_never_persists "hi" "dev_user" demo_models
    demo_preds ["mock-model"] rfl 5 (.ok ins_ok)
  ⟨h.1, h.2.1, h.2.2 ins_ok rfl⟩

/-- C10: in non-dev mode, a non-`HTTPException` raised by `verify_token`
(such as the token store being unreachable) is converted by
`conditional_auth` into a 401 with detail `Authentication failed` — the
request is answered 401, not 500 — while an `HTTPException` raised by
`verify_token` propagates with its own status and detail. -/
theorem conditional_auth_wraps_non_http (env : String) (henv : env ≠ "dev")
    (vt : Option String → Except PyExc String) (hdr : Option String)
    (models : List (String × (String → Except String Pred)))
    (coll : Option (Doc → Except String Nat)) (now : Int)
    (body : PredictRequest) :
    (∀ m, vt hdr = .error (.other m) →
       conditional_auth env vt hdr = (.error (.http 401 "Authentication failed"), 1) ∧
       (predict_route env vt models coll now hdr body).1 =
         .err 401 "Authentication failed") ∧
    (∀ s d, vt hdr = .error (.http s d) →
       conditional_auth env vt hdr = (.error (.http s d), 1)) := by
  constructor
  · intro m hm
    have hca : conditional_auth env vt hdr =
        (.error (.http 401 "Authentication failed"), 1) := by
      unfold conditional_auth
      rw [if_neg henv, hm]
    exact ⟨hca, by simp [predict_route, hca, excResp]⟩
  · intro s d hsd
    unfold conditional_auth
    rw [if_neg henv, hsd]

/-- Witness for C10: a prod-mode request whose token store is unreachable
is answered 401 `Authentication failed` rather than 500, and a verifier
raising a 401 `HTTPException` for a missing header propagates as is. -/
theorem conditional_auth_wraps_non_http_witness :
    (conditional_auth "prod" vt_down none =
       (.error (.http 401 "Authentication failed"), 1) ∧
     (predict_route "prod" vt_down demo_models (some ins_ok) 0 none ⟨"x"⟩).1 =
       .err 401 "Authentication failed") ∧
    conditional_auth "prod" vt_denied none =
      (.error (.http 401 "Missing Authorization header"), 1) :=
  ⟨(conditional_auth_wraps_non_http "prod" (by decide) vt_down none demo_models
      (some ins_ok) 0 ⟨"x"⟩).1 "token store unreachable" rfl,
   (conditional_auth_wraps_non_http "prod" (by decide) vt_denied none demo_models
      (some ins_ok) 0 ⟨"x"⟩).2 401 "Missing Authorization header" rfl⟩

end BasicMlApp
